import Mathlib

/-!
Verification of the formatting-checker core of `src/app.py` (a Word-document
formatting grader).  The document model, the text locator
(`find_text_in_document`), the rule evaluator (`check_specific_formatting`
with its colour classifier `is_color_in_range`) and the scan orchestrator
(`check_comprehensive_formatting`) are embedded shallowly:

* Python strings of document text are `List Char`; `str.lower`,
  `str.replace(" ", "")`, `str.startswith`, substring membership (`in`) and
  `int(...)` are translated character by character.
* python-docx attribute reads that may raise are modelled as
  `Except String _` fields of `Run` / `Paragraph`; the broad
  `try/except` of `check_specific_formatting` becomes a catch on the
  `Except` computation.
* python-docx enum values (`WD_UNDERLINE`, `WD_ALIGN_PARAGRAPH`,
  `WD_COLOR_INDEX`) become inductive types; an attribute that Python reports
  as `None` is `Option.none`.  `run.font.size.pt` is a rational number of
  points; Python float arithmetic in the score is modelled over `ℚ`.
-/

namespace WordChecker

/-- Document text: characters of a Python string. -/
abbrev PyChars := List Char

/-- Model of Python `str.lower()` (ASCII, as used by the checker). -/
def lowerChars (s : PyChars) : PyChars := s.map Char.toLower

/-- Model of Python `str.replace(" ", "")`: drop every space character. -/
def stripSpaces (s : PyChars) : PyChars := s.filter (fun c => !(c == ' '))

/-- Model of Python `str.startswith` on character lists. -/
def startsList : PyChars → PyChars → Bool
  | [], _ => true
  | _ :: _, [] => false
  | a :: as, b :: bs => a == b && startsList as bs

/-- Model of the Python substring test `needle in hay`. -/
def containsList (needle : PyChars) : PyChars → Bool
  | [] => needle.isEmpty
  | c :: rest => startsList needle (c :: rest) || containsList needle rest

/-- Python `s.startswith(p)` for `String`s. -/
def pyStartswith (s p : String) : Bool := startsList p.toList s.toList

/-- Python `s.lower()` for `String`s. -/
def pyLower (s : String) : String := String.mk (lowerChars s.toList)

/-- Model of Python `s.replace(pat, "")`: left-to-right, non-overlapping
removal of every occurrence of `pat`.  The `Nat` argument is recursion fuel
(`s.length` suffices, as each step consumes at least one character); the
checker only calls this with the non-empty patterns `"fontSize"` and
`"align"`. -/
def removeAllAux (pat : PyChars) : Nat → PyChars → PyChars
  | _, [] => []
  | 0, s => s
  | fuel + 1, c :: rest =>
    if startsList pat (c :: rest) then
      removeAllAux pat fuel (List.drop (pat.length - 1) rest)
    else
      c :: removeAllAux pat fuel rest

/-- Python `s.replace(pat, "")` for `String`s. -/
def pyRemoveAll (s pat : String) : String :=
  String.mk (removeAllAux pat.toList s.toList.length s.toList)

/-- Digits accumulator for `int(...)`. -/
def parseNatAux : PyChars → Nat → Option Nat
  | [], acc => some acc
  | c :: rest, acc =>
    if c.isDigit then parseNatAux rest (acc * 10 + (c.toNat - 48)) else none

/-- Model of Python `int(s)`: an optional minus sign followed by at least one
decimal digit; anything else raises `ValueError`. -/
def pyInt (s : String) : Except String Int :=
  match s.toList with
  | [] => Except.error ("invalid literal for int() with base 10: " ++ s)
  | '-' :: rest =>
    match rest, parseNatAux rest 0 with
    | _ :: _, some n => Except.ok (-(n : Int))
    | _, _ => Except.error ("invalid literal for int() with base 10: " ++ s)
  | l =>
    match parseNatAux l 0 with
    | some n => Except.ok ((n : Int))
    | none => Except.error ("invalid literal for int() with base 10: " ++ s)

/-- An RGB triple as exposed by `docx.shared.RGBColor` (components in 0..255). -/
structure RGB where
  r : Nat
  g : Nat
  b : Nat

/-- The `WD_UNDERLINE` enumeration members used by the checker (python-docx
reports `True` as `SINGLE` and `False` as `NONE`; `None` itself is modelled
as `Option.none`). -/
inductive WDUnderline
  | NONE
  | SINGLE
  | DOUBLE
  | DOTTED
  | DASH
  | WAVY
deriving DecidableEq

/-- The `WD_ALIGN_PARAGRAPH` enumeration members relevant to the checker. -/
inductive WDAlign
  | LEFT
  | CENTER
  | RIGHT
  | JUSTIFY
deriving DecidableEq

/-- The `WD_COLOR_INDEX` highlight enumeration members relevant to the
checker. -/
inductive WDColorIndex
  | TURQUOISE
  | YELLOW
  | BRIGHT_GREEN
  | PINK
  | RED
  | AUTO
deriving DecidableEq

/-- A text run.  `text` is `run.text`; every formatting attribute is a
python-docx read that may raise (`Except.error` carries `str(e)`), and a
successful read may report `None` (`Option.none`).  `size` is
`run.font.size.pt` in points; the remaining fields are `run.bold`,
`run.italic`, `run.underline`, `run.font.superscript`, `run.font.subscript`,
`run.font.strike`, `run.font.small_caps`, `run.font.name`,
`run.font.color.rgb` and `run.font.highlight_color`. -/
structure Run where
  text : PyChars
  bold : Except String (Option Bool)
  italic : Except String (Option Bool)
  underline : Except String (Option WDUnderline)
  superscript : Except String (Option Bool)
  subscript : Except String (Option Bool)
  strike : Except String (Option Bool)
  small_caps : Except String (Option Bool)
  size : Except String (Option ℚ)
  fontName : Except String (Option String)
  color_rgb : Except String (Option RGB)
  highlight_color : Except String (Option WDColorIndex)

/-- A paragraph: its runs and its (fallible) `paragraph.alignment`. -/
structure Paragraph where
  runs : List Run
  alignment : Except String (Option WDAlign)

/-- Model of `paragraph.text`: python-docx concatenates the text of the runs. -/
def Paragraph.text (p : Paragraph) : PyChars := (p.runs.map Run.text).flatten

/-- A decoded document: its ordered paragraphs. -/
structure Doc where
  paragraphs : List Paragraph

/-- One entry of `FORMATTING_TERMS`. -/
structure Term where
  searchedWord : PyChars
  formatCheck : String

/-- The verdict dictionary returned by `check_specific_formatting`. -/
structure Verdict where
  correct : Bool
  message : String
  debug : String

/-- The static requirement list `FORMATTING_TERMS` of `src/app.py`. -/
def FORMATTING_TERMS : List Term :=
  [⟨"Bold1".toList, "bold"⟩,
   ⟨"Italic1".toList, "italic"⟩,
   ⟨"Underline1".toList, "underline"⟩,
   ⟨"Underline2 Double".toList, "underlineDouble"⟩,
   ⟨"Underline3 Dotted".toList, "underlineDotted"⟩,
   ⟨"Underline4 Red".toList, "underlineRed"⟩,
   ⟨"Superscript".toList, "superscript"⟩,
   ⟨"Subscript".toList, "subscript"⟩,
   ⟨"Strikethrough1".toList, "strikethrough"⟩,
   ⟨"Strikethrough2 Double".toList, "strikethroughDouble"⟩,
   ⟨"SMALL CAPS".toList, "smallCaps"⟩,
   ⟨"10 point".toList, "fontSize10"⟩,
   ⟨"12 point".toList, "fontSize12"⟩,
   ⟨"15 point".toList, "fontSize15"⟩,
   ⟨"26 point".toList, "fontSize26"⟩,
   ⟨"Arial".toList, "fontArial"⟩,
   ⟨"Bookman Old Style".toList, "fontBookman"⟩,
   ⟨"Comic Sans Ms".toList, "fontComicSans"⟩,
   ⟨"Impact".toList, "fontImpact"⟩,
   ⟨"Tahoma".toList, "fontTahoma"⟩,
   ⟨"Verdana".toList, "fontVerdana"⟩,
   ⟨"Font Color Green".toList, "colorGreen"⟩,
   ⟨"Font Color Dark Blue".toList, "colorDarkBlue"⟩,
   ⟨"Highlight Turquoise".toList, "highlightTurquoise"⟩,
   ⟨"Character Spacing Expanded at 5".toList, "spacingExpanded5"⟩,
   ⟨"Character Spacing Expanded at 10".toList, "spacingExpanded10"⟩,
   ⟨"Character Spacing Condensed at 2".toList, "spacingCondensed2"⟩,
   ⟨"Align Right".toList, "alignRight"⟩,
   ⟨"Align Center".toList, "alignCenter"⟩,
   ⟨"Align Left".toList, "alignLeft"⟩]

/-- Python `str(b)` for booleans. -/
def pyStrBool : Bool → String
  | true => "True"
  | false => "False"

/-- Python `str` of an optional boolean attribute. -/
def pyStrOptBool : Option Bool → String
  | none => "None"
  | some b => pyStrBool b

/-- Display of a `WD_UNDERLINE` member (diagnostic strings only). -/
def WDUnderline.pyStr : WDUnderline → String
  | .NONE => "NONE (0)"
  | .SINGLE => "SINGLE (1)"
  | .DOUBLE => "DOUBLE (3)"
  | .DOTTED => "DOTTED (4)"
  | .DASH => "DASH (7)"
  | .WAVY => "WAVY (11)"

/-- Python `str` of an optional underline value. -/
def pyStrOptUnderline : Option WDUnderline → String
  | none => "None"
  | some u => u.pyStr

/-- Display of a `WD_ALIGN_PARAGRAPH` member (diagnostic strings only). -/
def WDAlign.pyStr : WDAlign → String
  | .LEFT => "LEFT (0)"
  | .CENTER => "CENTER (1)"
  | .RIGHT => "RIGHT (2)"
  | .JUSTIFY => "JUSTIFY (3)"

/-- Python `str` of an optional alignment value. -/
def pyStrOptAlign : Option WDAlign → String
  | none => "None"
  | some a => a.pyStr

/-- Display of a `WD_COLOR_INDEX` member (diagnostic strings only). -/
def WDColorIndex.pyStr : WDColorIndex → String
  | .TURQUOISE => "TURQUOISE (3)"
  | .YELLOW => "YELLOW (7)"
  | .BRIGHT_GREEN => "BRIGHT_GREEN (4)"
  | .PINK => "PINK (5)"
  | .RED => "RED (6)"
  | .AUTO => "AUTO (-1)"

/-- Python `str` of an optional highlight value. -/
def pyStrOptColorIndex : Option WDColorIndex → String
  | none => "None"
  | some c => c.pyStr

/-- Python `str` of an integer. -/
def pyStrInt (n : Int) : String := toString n

/-- Display of the rational modelling a float point size (diagnostic strings
only; Python would print a decimal float). -/
def pyStrRat (q : ℚ) : String := toString q.num ++ "/" ++ toString q.den

/-- Python `str` of the optional resolved size. -/
def pyStrOptRat : Option ℚ → String
  | none => "None"
  | some q => pyStrRat q

/-- Python `str` of an optional font name. -/
def pyStrOptString : Option String → String
  | none => "None"
  | some s => s

/-- One hexadecimal digit. -/
def hexDigit (n : Nat) : Char :=
  if n < 10 then Char.ofNat (48 + n) else Char.ofNat (87 + n)

/-- Two lowercase hexadecimal digits (Python `f"{v:02x}"` for 0..255). -/
def hex2 (n : Nat) : String := String.mk [hexDigit (n / 16 % 16), hexDigit (n % 16)]

/-- Model of `rgb_to_hex` of `src/app.py`: `None` for an absent colour, else
`"#rrggbb"` (the `try/except` cannot fire once an `RGB` value is present). -/
def rgb_to_hex : Option RGB → Option String
  | none => none
  | some c => some ("#" ++ hex2 c.r ++ hex2 c.g ++ hex2 c.b)

/-- Model of `is_color_in_range` of `src/app.py`: hand-tuned RGB regions keyed by a
lowercased target name; `False` for an absent colour or an unrecognized
name. -/
def is_color_in_range (rgb_color : Option RGB) (target_color_name : String) : Bool :=
  match rgb_color with
  | none => false
  | some c =>
    let r := c.r
    let g := c.g
    let b := c.b
    let t := pyLower target_color_name
    if t = "green" then
      decide (g > 100) && decide (r < 150) && decide (b < 150)
    else if t = "darkblue" then
      decide (b > 50) && decide (r < 80) && decide (g < 80) && decide (b > r) && decide (b > g)
    else if t = "red" then
      decide (r > 150) && decide (g < 100) && decide (b < 100)
    else if t = "blue" then
      decide (b > 100) && decide (r < 150) && decide (g < 150)
    else if t = "turquoise" then
      decide (g > 150) && decide (b > 150) && decide (r < 120)
    else
      false

/-- The `font_name_map` dictionary lookup `font_name_map.get(format_check, "")`. -/
def font_name_map (fc : String) : String :=
  if fc = "fontArial" then "arial"
  else if fc = "fontBookman" then "bookman"
  else if fc = "fontComicSans" then "comic"
  else if fc = "fontImpact" then "impact"
  else if fc = "fontTahoma" then "tahoma"
  else if fc = "fontVerdana" then "verdana"
  else ""

/-- The `alignment_map` dictionary lookup `alignment_map.get(format_check)`
(`None` when the key is absent). -/
def alignment_map (fc : String) : Option WDAlign :=
  if fc = "alignLeft" then some WDAlign.LEFT
  else if fc = "alignCenter" then some WDAlign.CENTER
  else if fc = "alignRight" then some WDAlign.RIGHT
  else none

/-- Python `str.title()` on the (ASCII) font keyword, used in one message. -/
def pyTitleAux : Bool → PyChars → PyChars
  | _, [] => []
  | prevAlpha, c :: rest =>
    (if c.isAlpha then (if prevAlpha then c.toLower else c.toUpper) else c)
      :: pyTitleAux c.isAlpha rest

/-- Python `s.title()` for `String`s. -/
def pyTitle (s : String) : String := String.mk (pyTitleAux false s.toList)

/-- The verdict built by the font-size branch of `check_specific_formatting`
once the target integer and the (possibly absent) `run.font.size` are in
hand: Python treats a zero `Length` as falsy, so a zero size becomes `None`,
and `None == target` is `False`. -/
def fontSizeVerdict (target_size : Int) (sz : Option ℚ) : Verdict :=
  let actual_size : Option ℚ := match sz with
    | some s => if s = 0 then none else some s
    | none => none
  let is_correct := match actual_size with
    | some s => decide (s = (target_size : ℚ))
    | none => false
  ⟨is_correct,
    if is_correct then pyStrInt target_size ++ "pt font size correct"
    else "Font size is " ++ pyStrOptRat actual_size ++ "pt, should be " ++
      pyStrInt target_size ++ "pt",
    "run.font.size = " ++ pyStrOptRat actual_size ++ "pt"⟩

/-- The body of `check_specific_formatting` (everything inside its `try`):
the branch dispatch on `term["formatCheck"]`.  A raised exception is an
`Except.error` carrying `str(e)`. -/
def checkFormattingBody (term : Term) (run : Run) (paragraph : Paragraph) :
    Except String Verdict := do
  if term.formatCheck = "bold" then
    let b ← run.bold
    let is_correct := match b with
      | some v => v
      | none => false
    pure ⟨is_correct,
      if is_correct then "Bold formatting correct" else "Bold formatting missing",
      "run.bold = " ++ pyStrOptBool b⟩
  else if term.formatCheck = "italic" then
    let b ← run.italic
    let is_correct := match b with
      | some v => v
      | none => false
    pure ⟨is_correct,
      if is_correct then "Italic formatting correct" else "Italic formatting missing",
      "run.italic = " ++ pyStrOptBool b⟩
  else if term.formatCheck = "underline" then
    let u ← run.underline
    let is_correct := decide (u ≠ none) && decide (u ≠ some WDUnderline.NONE)
    pure ⟨is_correct,
      if is_correct then "Underline formatting correct" else "Underline formatting missing",
      "run.underline = " ++ pyStrOptUnderline u⟩
  else if term.formatCheck = "underlineDouble" then
    let u ← run.underline
    let is_correct := decide (u = some WDUnderline.DOUBLE)
    pure ⟨is_correct,
      if is_correct then "Double underline correct"
      else "Underline is " ++ pyStrOptUnderline u ++ ", should be double",
      "run.underline = " ++ pyStrOptUnderline u⟩
  else if term.formatCheck = "superscript" then
    let b ← run.superscript
    let is_correct := match b with
      | some v => v
      | none => false
    pure ⟨is_correct,
      if is_correct then "Superscript formatting correct" else "Superscript formatting missing",
      "run.font.superscript = " ++ pyStrOptBool b⟩
  else if term.formatCheck = "subscript" then
    let b ← run.subscript
    let is_correct := match b with
      | some v => v
      | none => false
    pure ⟨is_correct,
      if is_correct then "Subscript formatting correct" else "Subscript formatting missing",
      "run.font.subscript = " ++ pyStrOptBool b⟩
  else if term.formatCheck = "strikethrough" then
    let b ← run.strike
    let is_correct := match b with
      | some v => v
      | none => false
    pure ⟨is_correct,
      if is_correct then "Strikethrough formatting correct" else "Strikethrough formatting missing",
      "run.font.strike = " ++ pyStrOptBool b⟩
  else if term.formatCheck = "smallCaps" then
    let b ← run.small_caps
    let is_correct := match b with
      | some v => v
      | none => false
    pure ⟨is_correct,
      if is_correct then "Small caps formatting correct" else "Small caps formatting missing",
      "run.font.small_caps = " ++ pyStrOptBool b⟩
  else if pyStartswith term.formatCheck "fontSize" then
    let target_size ← pyInt (pyRemoveAll term.formatCheck "fontSize")
    let sz ← run.size
    pure (fontSizeVerdict target_size sz)
  else if pyStartswith term.formatCheck "font" then
    let nm ← run.fontName
    let target_font := font_name_map term.formatCheck
    let actual_font := match nm with
      | some n => pyLower n
      | none => ""
    let is_correct := containsList target_font.toList actual_font.toList
    pure ⟨is_correct,
      if is_correct then pyTitle target_font ++ " font correct"
      else "Font is " ++ pyStrOptString nm ++ ", should contain " ++ target_font,
      "run.font.name = " ++ pyStrOptString nm⟩
  else if term.formatCheck = "colorGreen" then
    let rgb ← run.color_rgb
    let is_correct := is_color_in_range rgb "green"
    pure ⟨is_correct,
      if is_correct then "Green font color correct" else "Font color doesn\x27t match green range",
      "font.color.rgb = " ++ (rgb_to_hex rgb).getD "None"⟩
  else if term.formatCheck = "colorDarkBlue" then
    let rgb ← run.color_rgb
    let is_correct := is_color_in_range rgb "darkblue"
    pure ⟨is_correct,
      if is_correct then "Dark blue font color correct"
      else "Font color doesn\x27t match dark blue range",
      "font.color.rgb = " ++ (rgb_to_hex rgb).getD "None"⟩
  else if term.formatCheck = "highlightTurquoise" then
    let hl ← run.highlight_color
    let is_correct := decide (hl = some WDColorIndex.TURQUOISE)
    pure ⟨is_correct,
      if is_correct then "Turquoise highlight correct"
      else "Highlight color doesn\x27t match turquoise",
      "font.highlight_color = " ++ pyStrOptColorIndex hl⟩
  else if pyStartswith term.formatCheck "spacing" then
    pure ⟨false, "Character spacing check not available in python-docx",
      "Character spacing requires more advanced docx parsing"⟩
  else if pyStartswith term.formatCheck "align" then
    let target_alignment := alignment_map term.formatCheck
    let actual_alignment ← paragraph.alignment
    let is_correct := decide (actual_alignment = target_alignment)
    pure ⟨is_correct,
      if is_correct then pyRemoveAll term.formatCheck "align" ++ " alignment correct"
      else "Alignment is " ++ pyStrOptAlign actual_alignment ++ ", should be " ++
        pyStrOptAlign target_alignment,
      "paragraph.alignment = " ++ pyStrOptAlign actual_alignment⟩
  else
    pure ⟨false, "Format check for " ++ term.formatCheck ++ " not implemented",
      "formatCheck = " ++ term.formatCheck⟩

/-- Model of `check_specific_formatting` of `src/app.py`: the dispatch above wrapped
in the broad `try/except` that converts any raised exception into an
incorrect verdict with a diagnostic message. -/
def check_specific_formatting (term : Term) (run : Run) (paragraph : Paragraph) : Verdict :=
  match checkFormattingBody term run paragraph with
  | Except.ok v => v
  | Except.error e =>
    ⟨false, "Error checking " ++ term.formatCheck ++ ": " ++ e, "Exception: " ++ e⟩

/-- One entry of the `found_instances` list of `find_text_in_document`. -/
structure Found where
  paragraph : Paragraph
  paragraph_idx : Nat
  run : Run
  run_idx : Nat
  text : PyChars

/-- The inner `for run_idx, run in enumerate(paragraph.runs)` loop: collect a
`Found` record for every run satisfying `cond`, numbering runs from `base`. -/
def runScan (cond : Run → Bool) (p : Paragraph) (pIdx : Nat) :
    Nat → List Run → List Found
  | _, [] => []
  | base, r :: rest =>
    (if cond r then [⟨p, pIdx, r, base, r.text⟩] else []) ++
      runScan cond p pIdx (base + 1) rest

/-- The body of the paragraph loop of `find_text_in_document`: the
case-insensitive exact-substring pass followed (for phrases containing a
space) by the whitespace-stripped fallback pass; both passes append their
run matches. -/
def paraMatches (search_text : PyChars) (pIdx : Nat) (p : Paragraph) : List Found :=
  let paragraph_text := lowerChars p.text
  let search_lower := lowerChars search_text
  (if containsList search_lower paragraph_text then
    runScan (fun r => containsList search_lower (lowerChars r.text)) p pIdx 0 p.runs
  else []) ++
  (if ' ' ∈ search_text then
    let no_space_search := lowerChars (stripSpaces search_text)
    if containsList no_space_search (stripSpaces paragraph_text) then
      runScan (fun r => containsList no_space_search (lowerChars (stripSpaces r.text)))
        p pIdx 0 p.runs
    else []
  else [])

/-- The outer `for para_idx, paragraph in enumerate(doc.paragraphs)` loop. -/
def findAux (s : PyChars) : Nat → List Paragraph → List Found
  | _, [] => []
  | i, p :: rest => paraMatches s i p ++ findAux s (i + 1) rest

/-- Model of `find_text_in_document` of `src/app.py`. -/
def find_text_in_document (doc : Doc) (search_text : PyChars) : List Found :=
  findAux search_text 0 doc.paragraphs

/-- One entry of `part1_results`. -/
structure Part1Entry where
  word : PyChars
  found : Bool
  instances_count : Nat

/-- One entry of `part2_results`. -/
structure Part2Entry where
  word : PyChars
  format_check : String
  correct : Bool
  message : String
  debug : String

/-- A found term queued for the format phase (`found_terms` entries). -/
structure FoundTerm where
  term : Term
  instances : List Found

/-- The `results` dictionary built by `check_comprehensive_formatting`. -/
structure ScanResults where
  total_terms : Nat
  found_count : Nat
  format_correct_count : Nat
  part1_results : List Part1Entry
  part2_results : List Part2Entry
  overall_score : ℚ
  debug_info : List String

/-- PART 1 of the scan: for each term, locate its phrase and record
found/not-found; returns the found count, the `part1_results` entries, the
`found_terms` queue and the `debug_info` lines, in source order. -/
def runPart1 (doc : Doc) : List Term → Nat × List Part1Entry × List FoundTerm × List String
  | [] => (0, [], [], [])
  | t :: rest =>
    let found_instances := find_text_in_document doc t.searchedWord
    let is_found := decide (found_instances.length > 0)
    let r := runPart1 doc rest
    ((if is_found then 1 else 0) + r.1,
     ⟨t.searchedWord, is_found, found_instances.length⟩ :: r.2.1,
     (if is_found then [⟨t, found_instances⟩] else []) ++ r.2.2.1,
     ("Searched \x27" ++ String.mk t.searchedWord ++ "\x27: " ++
       (if is_found then "FOUND" else "NOT FOUND") ++ " (" ++
       toString found_instances.length ++ " instances)") :: r.2.2.2)

/-- PART 2 of the scan: for each found term (in order), judge the formatting
of the first recorded instance; returns `format_correct_count` and the
`part2_results` entries. -/
def runPart2 : List FoundTerm → Nat × List Part2Entry
  | [] => (0, [])
  | ft :: rest =>
    match ft.instances with
    | [] => runPart2 rest
    | inst :: _ =>
      let format_result := check_specific_formatting ft.term inst.run inst.paragraph
      let r := runPart2 rest
      ((if format_result.correct then 1 else 0) + r.1,
       ⟨ft.term.searchedWord, ft.term.formatCheck, format_result.correct,
         format_result.message, format_result.debug⟩ :: r.2)

/-- The data produced by PART 1 of `check_comprehensive_formatting`. -/
def part1Data (doc : Doc) : Nat × List Part1Entry × List FoundTerm × List String :=
  runPart1 doc FORMATTING_TERMS

/-- The data produced by PART 2 of `check_comprehensive_formatting`: the
format phase runs only when PART 1 found every term (`found_count ==
total_terms`), otherwise the count stays `0` and no verdicts are produced. -/
def part2Data (doc : Doc) : Nat × List Part2Entry :=
  if (part1Data doc).1 = FORMATTING_TERMS.length then
    runPart2 (part1Data doc).2.2.1
  else (0, [])

/-- Model of `check_comprehensive_formatting` of `src/app.py`: the find phase, the
gated format phase, and the final score
`(part1_percentage + part2_percentage) / 2`. -/
def check_comprehensive_formatting (doc : Doc) : ScanResults :=
  { total_terms := FORMATTING_TERMS.length
    found_count := (part1Data doc).1
    format_correct_count := (part2Data doc).1
    part1_results := (part1Data doc).2.1
    part2_results := (part2Data doc).2
    overall_score :=
      ((((part1Data doc).1 : ℚ) / (FORMATTING_TERMS.length : ℚ)) * 100 +
        (if (part1Data doc).1 = FORMATTING_TERMS.length then
          (((part2Data doc).1 : ℚ) / (FORMATTING_TERMS.length : ℚ)) * 100
        else 0)) / 2
    debug_info := (part1Data doc).2.2.2 }

/-! ### Concrete documents, runs and terms used as test inputs -/

/-- A run with empty text whose every attribute reads back as `None`. -/
def emptyRun : Run :=
  ⟨[], Except.ok none, Except.ok none, Except.ok none, Except.ok none,
   Except.ok none, Except.ok none, Except.ok none, Except.ok none,
   Except.ok none, Except.ok none, Except.ok none⟩

/-- A paragraph with no runs and unset alignment. -/
def emptyPara : Paragraph := ⟨[], Except.ok none⟩

/-- The `12 point` requirement of `FORMATTING_TERMS`. -/
def term_fontSize12 : Term := ⟨"12 point".toList, "fontSize12"⟩

/-- A run whose resolved size is 12.4pt. -/
def run_12_4pt : Run := { emptyRun with size := Except.ok (some (mkRat 62 5)) }

/-- A run whose resolved size is 12.0pt. -/
def run_12pt : Run := { emptyRun with size := Except.ok (some (mkRat 12 1)) }

/-- The `Underline3 Dotted` requirement of `FORMATTING_TERMS`. -/
def term_underlineDotted : Term := ⟨"Underline3 Dotted".toList, "underlineDotted"⟩

/-- A run carrying a dotted underline. -/
def run_dotted : Run := { emptyRun with underline := Except.ok (some WDUnderline.DOTTED) }

/-- A run carrying a single underline. -/
def run_single : Run := { emptyRun with underline := Except.ok (some WDUnderline.SINGLE) }

/-- The `Underline1` requirement of `FORMATTING_TERMS`. -/
def term_underline : Term := ⟨"Underline1".toList, "underline"⟩

/-- The `Bold1` requirement of `FORMATTING_TERMS`. -/
def term_bold : Term := ⟨"Bold1".toList, "bold"⟩

/-- A run whose `run.bold` read raises. -/
def run_boldFault : Run := { emptyRun with bold := Except.error "AttributeError: font" }

/-- The `Character Spacing Expanded at 5` requirement of `FORMATTING_TERMS`. -/
def term_spacing5 : Term := ⟨"Character Spacing Expanded at 5".toList, "spacingExpanded5"⟩

/-- The `Strikethrough2 Double` requirement of `FORMATTING_TERMS`: its kind
has no implemented branch. -/
def term_strikeDouble : Term := ⟨"Strikethrough2 Double".toList, "strikethroughDouble"⟩

/-- A requirement whose kind starts with `font` but maps to no font keyword. -/
def term_fontFoo : Term := ⟨"Foo".toList, "fontFoo"⟩

/-- A run containing the text `AlignRight` (no space). -/
def run_alignRight : Run := { emptyRun with text := "AlignRight".toList }

/-- A paragraph holding only `run_alignRight`. -/
def para_alignRight : Paragraph := ⟨[run_alignRight], Except.ok none⟩

/-- A one-paragraph document whose text is `AlignRight`. -/
def doc_alignRight : Doc := ⟨[para_alignRight]⟩

/-! ### Helper lemmas -/

/-- The empty needle is a substring of every string (Python `"" in s`). -/
lemma containsList_nil (L : PyChars) : containsList [] L = true := by
  cases L <;> simp [containsList, startsList, List.isEmpty]

/-- A successful prefix test pins down the head of the scanned string. -/
lemma startsList_head_or {p L : PyChars} (h : startsList p L = true) :
    p = [] ∨ L.head? = p.head? := by
  cases p with
  | nil => exact Or.inl rfl
  | cons a as =>
    cases L with
    | nil => simp [startsList] at h
    | cons b bs =>
      right
      simp only [startsList, Bool.and_eq_true, beq_iff_eq] at h
      simp [h.1]

/-- Two prefixes of the same string agree on their first character. -/
lemma pyStarts_head {s p q : String} (hp : pyStartswith s p = true)
    (hq : pyStartswith s q = true) :
    p.toList = [] ∨ q.toList = [] ∨ p.toList.head? = q.toList.head? := by
  unfold pyStartswith at hp hq
  rcases startsList_head_or hp with h1 | h1
  · exact Or.inl h1
  rcases startsList_head_or hq with h2 | h2
  · exact Or.inr (Or.inl h2)
  · exact Or.inr (Or.inr (h1.symm.trans h2))

/-- A string starting with `p` cannot also start with `q` when the two
pattern heads differ. -/
lemma pyStarts_excl {s p q : String} (hp : pyStartswith s p = true)
    (hne : ¬(p.toList = [] ∨ q.toList = [] ∨ p.toList.head? = q.toList.head?)) :
    pyStartswith s q = false := by
  cases hqv : pyStartswith s q
  · rfl
  · exact absurd (pyStarts_head hp hqv) hne

/-- A string starting with `p` differs from any literal not starting with `p`. -/
lemma pyStarts_ne {s p t : String} (hp : pyStartswith s p = true)
    (hne : pyStartswith t p = false) : s ≠ t := by
  intro h
  rw [h, hne] at hp
  exact Bool.false_ne_true hp

/-! ### C1 and C2: the scan orchestrator -/

/-- Projection of the scan result: the total. -/
lemma check_total_terms (doc : Doc) :
    (check_comprehensive_formatting doc).total_terms = FORMATTING_TERMS.length := rfl

/-- Projection of the scan result: the found count comes from PART 1. -/
lemma check_found_count (doc : Doc) :
    (check_comprehensive_formatting doc).found_count = (part1Data doc).1 := rfl

/-- Projection of the scan result: the format count comes from the gated
PART 2. -/
lemma check_format_correct_count (doc : Doc) :
    (check_comprehensive_formatting doc).format_correct_count = (part2Data doc).1 := by
  delta check_comprehensive_formatting
  with_reducible rfl

/-- Projection of the scan result: the per-requirement format verdicts come
from the gated PART 2. -/
lemma check_part2_results (doc : Doc) :
    (check_comprehensive_formatting doc).part2_results = (part2Data doc).2 := by
  delta check_comprehensive_formatting
  with_reducible rfl

/-- Projection of the scan result: the score formula. -/
lemma check_overall_score (doc : Doc) :
    (check_comprehensive_formatting doc).overall_score =
      ((((part1Data doc).1 : ℚ) / (FORMATTING_TERMS.length : ℚ)) * 100 +
        (if (part1Data doc).1 = FORMATTING_TERMS.length then
          (((part2Data doc).1 : ℚ) / (FORMATTING_TERMS.length : ℚ)) * 100
        else 0)) / 2 := by
  delta check_comprehensive_formatting
  with_reducible rfl

/-- The gate of PART 2, as an equation. -/
lemma part2Data_eq (doc : Doc) :
    part2Data doc =
      if (part1Data doc).1 = FORMATTING_TERMS.length then
        runPart2 (part1Data doc).2.2.1
      else (0, []) := by
  delta part2Data
  with_reducible rfl

/-- C1: Gating law for the scan: for every document, if the number of found
requirements is strictly less than the total then `format_correct_count` is
`0` and `part2_results` is empty — the format phase runs only when every
phrase was located. -/
theorem c1_gating (doc : Doc)
    (h : (check_comprehensive_formatting doc).found_count <
      (check_comprehensive_formatting doc).total_terms) :
    (check_comprehensive_formatting doc).format_correct_count = 0 ∧
      (check_comprehensive_formatting doc).part2_results = [] := by
  rw [check_found_count, check_total_terms] at h
  rw [check_format_correct_count, check_part2_results, part2Data_eq,
    if_neg (Nat.ne_of_lt h)]
  exact ⟨rfl, rfl⟩

theorem c1_gating_witness :
    (check_comprehensive_formatting ⟨[]⟩).format_correct_count = 0 ∧
      (check_comprehensive_formatting ⟨[]⟩).part2_results = [] :=
  c1_gating ⟨[]⟩ (by decide)

/-- C2: the overall score is the arithmetic mean of the find percentage
`100·found/total` and the format percentage, the latter being
`100·formatCorrect/total` when every phrase was found and `0` otherwise. -/
theorem c2_overall_score (doc : Doc) :
    (check_comprehensive_formatting doc).overall_score =
      (100 * ((check_comprehensive_formatting doc).found_count : ℚ) /
          ((check_comprehensive_formatting doc).total_terms : ℚ) +
        (if (check_comprehensive_formatting doc).found_count =
            (check_comprehensive_formatting doc).total_terms then
          100 * ((check_comprehensive_formatting doc).format_correct_count : ℚ) /
            ((check_comprehensive_formatting doc).total_terms : ℚ)
        else 0)) / 2 := by
  rw [check_overall_score, check_found_count, check_total_terms, check_format_correct_count]
  split_ifs with hc <;> ring

/-! ### C8: the colour classifier -/

/-- C8: `is_color_in_range` is a pure function of the RGB triple and the
target name: the `green` region is exactly `g > 100 ∧ r < 150 ∧ b < 150`,
an absent colour is never matched, and a name outside the five recognized
targets is never matched. -/
theorem c8_color_classifier (c : Option RGB) (t : String) :
    is_color_in_range none t = false ∧
    (∀ r g b : Nat, is_color_in_range (some ⟨r, g, b⟩) "green" = true ↔
      (g > 100 ∧ r < 150 ∧ b < 150)) ∧
    (pyLower t ∉ ["green", "darkblue", "red", "blue", "turquoise"] →
      is_color_in_range c t = false) := by
  refine ⟨rfl, ?_, ?_⟩
  · intro r g b
    simp only [is_color_in_range]
    rw [show pyLower "green" = "green" from by decide]
    simp [Bool.and_eq_true, and_assoc]
  · intro h
    simp only [List.mem_cons, List.not_mem_nil, not_or, or_false] at h
    obtain ⟨h1, h2, h3, h4, h5⟩ := h
    cases c with
    | none => rfl
    | some c => simp [is_color_in_range, h1, h2, h3, h4, h5]

theorem c8_color_classifier_witness :
    is_color_in_range (some ⟨50, 180, 60⟩) "green" = true ∧
    is_color_in_range (some ⟨0, 0, 0⟩) "green" = false ∧
    is_color_in_range (some ⟨10, 20, 30⟩) "purple" = false := by
  refine ⟨((c8_color_classifier none "x").2.1 50 180 60).mpr (by decide), ?_, ?_⟩
  · have h := (c8_color_classifier none "x").2.1 0 0 0
    rw [Bool.eq_false_iff]
    intro hc
    have := h.mp hc
    omega
  · exact (c8_color_classifier (some ⟨10, 20, 30⟩) "purple").2.2 (by decide)

/-! ### The rule evaluator -/

/-- A `checkKind` matching none of the dispatch branches reaches the final
`else` and yields the `not implemented` verdict. -/
lemma checkBody_unknown (t : Term) (r : Run) (p : Paragraph)
    (e1 : t.formatCheck ≠ "bold") (e2 : t.formatCheck ≠ "italic")
    (e3 : t.formatCheck ≠ "underline") (e4 : t.formatCheck ≠ "underlineDouble")
    (e5 : t.formatCheck ≠ "superscript") (e6 : t.formatCheck ≠ "subscript")
    (e7 : t.formatCheck ≠ "strikethrough") (e8 : t.formatCheck ≠ "smallCaps")
    (e9 : t.formatCheck ≠ "colorGreen") (e10 : t.formatCheck ≠ "colorDarkBlue")
    (e11 : t.formatCheck ≠ "highlightTurquoise")
    (s1 : pyStartswith t.formatCheck "fontSize" = false)
    (s2 : pyStartswith t.formatCheck "font" = false)
    (s3 : pyStartswith t.formatCheck "spacing" = false)
    (s4 : pyStartswith t.formatCheck "align" = false) :
    check_specific_formatting t r p =
      ⟨false, "Format check for " ++ t.formatCheck ++ " not implemented",
        "formatCheck = " ++ t.formatCheck⟩ := by
  have s1' : ¬(pyStartswith t.formatCheck "fontSize" = true) := by simp [s1]
  have s2' : ¬(pyStartswith t.formatCheck "font" = true) := by simp [s2]
  have s3' : ¬(pyStartswith t.formatCheck "spacing" = true) := by simp [s3]
  have s4' : ¬(pyStartswith t.formatCheck "align" = true) := by simp [s4]
  unfold check_specific_formatting checkFormattingBody
  simp only [if_neg e1, if_neg e2, if_neg e3, if_neg e4, if_neg e5, if_neg e6,
    if_neg e7, if_neg e8, if_neg s1', if_neg s2', if_neg e9, if_neg e10,
    if_neg e11, if_neg s3', if_neg s4']
  rfl

/-- C5: a requirement whose `checkKind` is none of the recognized kinds gets
`correct = false` with a message naming the unrecognized kind; the evaluator
returns this verdict normally (no exception escapes, the scan goes on). -/
theorem c5_unknown_checkKind (t : Term) (r : Run) (p : Paragraph)
    (h : t.formatCheck ∉ ["bold", "italic", "underline", "underlineDouble",
      "superscript", "subscript", "strikethrough", "smallCaps", "colorGreen",
      "colorDarkBlue", "highlightTurquoise"])
    (s1 : pyStartswith t.formatCheck "fontSize" = false)
    (s2 : pyStartswith t.formatCheck "font" = false)
    (s3 : pyStartswith t.formatCheck "spacing" = false)
    (s4 : pyStartswith t.formatCheck "align" = false) :
    check_specific_formatting t r p =
      ⟨false, "Format check for " ++ t.formatCheck ++ " not implemented",
        "formatCheck = " ++ t.formatCheck⟩ := by
  simp only [List.mem_cons, List.not_mem_nil, or_false, not_or] at h
  obtain ⟨e1, e2, e3, e4, e5, e6, e7, e8, e9, e10, e11⟩ := h
  exact checkBody_unknown t r p e1 e2 e3 e4 e5 e6 e7 e8 e9 e10 e11 s1 s2 s3 s4

theorem c5_unknown_checkKind_witness :
    check_specific_formatting term_strikeDouble emptyRun emptyPara =
      ⟨false, "Format check for " ++ term_strikeDouble.formatCheck ++ " not implemented",
        "formatCheck = " ++ term_strikeDouble.formatCheck⟩ :=
  c5_unknown_checkKind term_strikeDouble emptyRun emptyPara (by decide) (by decide)
    (by decide) (by decide) (by decide)

/-- C6: a raised attribute read (an `Except.error` from the body) is caught
by the surrounding `try/except`, producing `correct = false` with a message
containing the exception text; `check_specific_formatting` stays total, so
the scan of the remaining requirements continues. -/
theorem c6_fault_contained (t : Term) (r : Run) (p : Paragraph) (e : String)
    (h : checkFormattingBody t r p = Except.error e) :
    check_specific_formatting t r p =
      ⟨false, "Error checking " ++ t.formatCheck ++ ": " ++ e, "Exception: " ++ e⟩ := by
  unfold check_specific_formatting
  rw [h]

theorem c6_fault_contained_witness :
    check_specific_formatting term_bold run_boldFault emptyPara =
      ⟨false, "Error checking " ++ term_bold.formatCheck ++ ": " ++ "AttributeError: font",
        "Exception: " ++ "AttributeError: font"⟩ :=
  c6_fault_contained term_bold run_boldFault emptyPara "AttributeError: font" rfl

/-- C7: every `checkKind` beginning with `spacing` yields `correct = false`
with the capability-unavailable message, whatever the run and paragraph. -/
theorem c7_spacing_unavailable (t : Term) (r : Run) (p : Paragraph)
    (h : pyStartswith t.formatCheck "spacing" = true) :
    check_specific_formatting t r p =
      ⟨false, "Character spacing check not available in python-docx",
        "Character spacing requires more advanced docx parsing"⟩ := by
  have e1 : t.formatCheck ≠ "bold" := pyStarts_ne h (by decide)
  have e2 : t.formatCheck ≠ "italic" := pyStarts_ne h (by decide)
  have e3 : t.formatCheck ≠ "underline" := pyStarts_ne h (by decide)
  have e4 : t.formatCheck ≠ "underlineDouble" := pyStarts_ne h (by decide)
  have e5 : t.formatCheck ≠ "superscript" := pyStarts_ne h (by decide)
  have e6 : t.formatCheck ≠ "subscript" := pyStarts_ne h (by decide)
  have e7 : t.formatCheck ≠ "strikethrough" := pyStarts_ne h (by decide)
  have e8 : t.formatCheck ≠ "smallCaps" := pyStarts_ne h (by decide)
  have e9 : t.formatCheck ≠ "colorGreen" := pyStarts_ne h (by decide)
  have e10 : t.formatCheck ≠ "colorDarkBlue" := pyStarts_ne h (by decide)
  have e11 : t.formatCheck ≠ "highlightTurquoise" := pyStarts_ne h (by decide)
  have s1 : pyStartswith t.formatCheck "fontSize" = false := pyStarts_excl h (by decide)
  have s2 : pyStartswith t.formatCheck "font" = false := pyStarts_excl h (by decide)
  have s1' : ¬(pyStartswith t.formatCheck "fontSize" = true) := by simp [s1]
  have s2' : ¬(pyStartswith t.formatCheck "font" = true) := by simp [s2]
  unfold check_specific_formatting checkFormattingBody
  simp only [if_neg e1, if_neg e2, if_neg e3, if_neg e4, if_neg e5, if_neg e6,
    if_neg e7, if_neg e8, if_neg s1', if_neg s2', if_neg e9, if_neg e10,
    if_neg e11, if_pos h]
  rfl

theorem c7_spacing_unavailable_witness :
    check_specific_formatting term_spacing5 emptyRun emptyPara =
      ⟨false, "Character spacing check not available in python-docx",
        "Character spacing requires more advanced docx parsing"⟩ :=
  c7_spacing_unavailable term_spacing5 emptyRun emptyPara (by decide)

/-- Evaluation of the font-size branch: once the kind starts with
`fontSize`, the suffix parses to `N` and `run.font.size` reads back `sz`,
the verdict is `fontSizeVerdict N sz`. -/
lemma checkBody_fontSize (t : Term) (r : Run) (p : Paragraph) (N : Int) (sz : Option ℚ)
    (h : pyStartswith t.formatCheck "fontSize" = true)
    (hN : pyInt (pyRemoveAll t.formatCheck "fontSize") = Except.ok N)
    (hs : r.size = Except.ok sz) :
    check_specific_formatting t r p = fontSizeVerdict N sz := by
  have e1 : t.formatCheck ≠ "bold" := pyStarts_ne h (by decide)
  have e2 : t.formatCheck ≠ "italic" := pyStarts_ne h (by decide)
  have e3 : t.formatCheck ≠ "underline" := pyStarts_ne h (by decide)
  have e4 : t.formatCheck ≠ "underlineDouble" := pyStarts_ne h (by decide)
  have e5 : t.formatCheck ≠ "superscript" := pyStarts_ne h (by decide)
  have e6 : t.formatCheck ≠ "subscript" := pyStarts_ne h (by decide)
  have e7 : t.formatCheck ≠ "strikethrough" := pyStarts_ne h (by decide)
  have e8 : t.formatCheck ≠ "smallCaps" := pyStarts_ne h (by decide)
  unfold check_specific_formatting checkFormattingBody
  simp only [if_neg e1, if_neg e2, if_neg e3, if_neg e4, if_neg e5, if_neg e6,
    if_neg e7, if_neg e8, if_pos h]
  rw [hN, hs]
  rfl

/-- C3 counterexample: for the target-12 requirement, a resolved size of
12.4pt rounds to 12 whole points, yet the evaluator judges it incorrect —
the code compares the unrounded size for exact equality. -/
theorem c3_rounding_counterexample :
    run_12_4pt.size = Except.ok (some (mkRat 62 5)) ∧
    round (mkRat 62 5) = (12 : ℤ) ∧
    (check_specific_formatting term_fontSize12 run_12_4pt emptyPara).correct = false := by
  refine ⟨rfl, ?_, by decide⟩
  norm_num [round_eq, mkRat, Rat.normalize]

/-- C3 (amended): for a font-size requirement with integer target `N`, the
verdict is `correct = true` iff the run resolved size equals `N` exactly (no
rounding, no tolerance; a zero size is treated by the code as absent), and a
run with no resolved size is never correct. -/
theorem c3_font_size_exact (t : Term) (r : Run) (p : Paragraph) (N : Int)
    (h : pyStartswith t.formatCheck "fontSize" = true)
    (hN : pyInt (pyRemoveAll t.formatCheck "fontSize") = Except.ok N) :
    (∀ s : ℚ, r.size = Except.ok (some s) →
      ((check_specific_formatting t r p).correct = true ↔ (s ≠ 0 ∧ s = (N : ℚ)))) ∧
    (r.size = Except.ok none → (check_specific_formatting t r p).correct = false) := by
  constructor
  · intro s hs
    rw [checkBody_fontSize t r p N (some s) h hN hs]
    unfold fontSizeVerdict
    by_cases h0 : s = 0
    · simp [h0]
    · simp [h0]
  · intro hs
    rw [checkBody_fontSize t r p N none h hN hs]
    rfl

theorem c3_font_size_exact_witness :
    (check_specific_formatting term_fontSize12 run_12pt emptyPara).correct = true :=
  ((c3_font_size_exact term_fontSize12 run_12pt emptyPara 12 (by decide) rfl).1
    (mkRat 12 1) rfl).mpr (by norm_num [mkRat, Rat.normalize])

/-- C4 (amended): the `underline` kind is satisfied by any present,
non-`NONE` underline style and `underlineDouble` requires exactly `DOUBLE`;
but `underlineDotted`, like `underlineRed`, has no implemented branch — both
fall through to the unknown-kind verdict and always report `correct = false`
as not implemented. -/
theorem c4_underline_rules (t : Term) (r : Run) (p : Paragraph)
    (u : Option WDUnderline) (hu : r.underline = Except.ok u) :
    (t.formatCheck = "underline" →
      ((check_specific_formatting t r p).correct = true ↔
        (u ≠ none ∧ u ≠ some WDUnderline.NONE))) ∧
    (t.formatCheck = "underlineDouble" →
      ((check_specific_formatting t r p).correct = true ↔ u = some WDUnderline.DOUBLE)) ∧
    (t.formatCheck = "underlineDotted" →
      check_specific_formatting t r p =
        ⟨false, "Format check for " ++ t.formatCheck ++ " not implemented",
          "formatCheck = " ++ t.formatCheck⟩) ∧
    (t.formatCheck = "underlineRed" →
      check_specific_formatting t r p =
        ⟨false, "Format check for " ++ t.formatCheck ++ " not implemented",
          "formatCheck = " ++ t.formatCheck⟩) := by
  refine ⟨?_, ?_, ?_, ?_⟩
  · intro ht
    unfold check_specific_formatting checkFormattingBody
    rw [ht, hu]
    simp only [if_neg (by decide : ¬("underline" : String) = "bold"),
      if_neg (by decide : ¬("underline" : String) = "italic"),
      if_pos (rfl : ("underline" : String) = "underline")]
    change (decide (u ≠ none) && decide (u ≠ some WDUnderline.NONE)) = true ↔ _
    simp [Bool.and_eq_true, decide_eq_true_eq]
  · intro ht
    unfold check_specific_formatting checkFormattingBody
    rw [ht, hu]
    simp only [if_neg (by decide : ¬("underlineDouble" : String) = "bold"),
      if_neg (by decide : ¬("underlineDouble" : String) = "italic"),
      if_neg (by decide : ¬("underlineDouble" : String) = "underline"),
      if_pos (rfl : ("underlineDouble" : String) = "underlineDouble")]
    change (decide (u = some WDUnderline.DOUBLE)) = true ↔ _
    simp [decide_eq_true_eq]
  · intro ht
    exact checkBody_unknown t r p (by rw [ht]; decide) (by rw [ht]; decide)
      (by rw [ht]; decide) (by rw [ht]; decide) (by rw [ht]; decide) (by rw [ht]; decide)
      (by rw [ht]; decide) (by rw [ht]; decide) (by rw [ht]; decide) (by rw [ht]; decide)
      (by rw [ht]; decide) (by rw [ht]; decide) (by rw [ht]; decide) (by rw [ht]; decide)
      (by rw [ht]; decide)
  · intro ht
    exact checkBody_unknown t r p (by rw [ht]; decide) (by rw [ht]; decide)
      (by rw [ht]; decide) (by rw [ht]; decide) (by rw [ht]; decide) (by rw [ht]; decide)
      (by rw [ht]; decide) (by rw [ht]; decide) (by rw [ht]; decide) (by rw [ht]; decide)
      (by rw [ht]; decide) (by rw [ht]; decide) (by rw [ht]; decide) (by rw [ht]; decide)
      (by rw [ht]; decide)

theorem c4_underline_rules_witness :
    (check_specific_formatting term_underline run_single emptyPara).correct = true :=
  ((c4_underline_rules term_underline run_single emptyPara (some WDUnderline.SINGLE)
    rfl).1 rfl).mpr (by decide)

/-- C4 counterexample: a run whose underline style is exactly `DOTTED`,
checked under the `underlineDotted` kind, is judged `correct = false` with a
`not implemented` message — where the claim requires `correct = true` on an
exact dotted match. -/
theorem c4_dotted_counterexample :
    run_dotted.underline = Except.ok (some WDUnderline.DOTTED) ∧
    (check_specific_formatting term_underlineDotted run_dotted emptyPara).correct = false ∧
    (check_specific_formatting term_underlineDotted run_dotted emptyPara).message =
      "Format check for underlineDotted not implemented" :=
  ⟨rfl, by decide, by decide⟩

/-- C10 (implicit): a `checkKind` starting with `font` that is neither one
of the six mapped font kinds nor a `fontSize` kind takes the font-name
branch with the empty keyword, and the empty string is a substring of every
(possibly absent) font name, so the verdict is `correct = true` for every
run whose name read succeeds — the unknown-kind branch is never reached. -/
theorem c10_font_fallthrough (t : Term) (r : Run) (p : Paragraph) (nm : Option String)
    (h1 : pyStartswith t.formatCheck "font" = true)
    (h2 : pyStartswith t.formatCheck "fontSize" = false)
    (h3 : t.formatCheck ∉ ["fontArial", "fontBookman", "fontComicSans",
      "fontImpact", "fontTahoma", "fontVerdana"])
    (h4 : r.fontName = Except.ok nm) :
    (check_specific_formatting t r p).correct = true := by
  have e1 : t.formatCheck ≠ "bold" := pyStarts_ne h1 (by decide)
  have e2 : t.formatCheck ≠ "italic" := pyStarts_ne h1 (by decide)
  have e3 : t.formatCheck ≠ "underline" := pyStarts_ne h1 (by decide)
  have e4 : t.formatCheck ≠ "underlineDouble" := pyStarts_ne h1 (by decide)
  have e5 : t.formatCheck ≠ "superscript" := pyStarts_ne h1 (by decide)
  have e6 : t.formatCheck ≠ "subscript" := pyStarts_ne h1 (by decide)
  have e7 : t.formatCheck ≠ "strikethrough" := pyStarts_ne h1 (by decide)
  have e8 : t.formatCheck ≠ "smallCaps" := pyStarts_ne h1 (by decide)
  have h2' : ¬(pyStartswith t.formatCheck "fontSize" = true) := by simp [h2]
  simp only [List.mem_cons, List.not_mem_nil, or_false, not_or] at h3
  obtain ⟨n1, n2, n3, n4, n5, n6⟩ := h3
  unfold check_specific_formatting checkFormattingBody
  simp only [if_neg e1, if_neg e2, if_neg e3, if_neg e4, if_neg e5, if_neg e6,
    if_neg e7, if_neg e8, if_neg h2', if_pos h1]
  rw [h4]
  clear h4
  change containsList (font_name_map t.formatCheck).toList
    ((match nm with | some n => pyLower n | none => "") : String).toList = true
  rw [show font_name_map t.formatCheck = "" by
    simp [font_name_map, n1, n2, n3, n4, n5, n6]]
  exact containsList_nil _

theorem c10_font_fallthrough_witness :
    (check_specific_formatting term_fontFoo emptyRun emptyPara).correct = true :=
  c10_font_fallthrough term_fontFoo emptyRun emptyPara none (by decide) (by decide)
    (by decide) rfl

/-! ### C9: the text locator -/

/-- The run loop records an entry for every run satisfying the predicate:
if run `ri` of `runs` satisfies `cond`, the `Found` record numbered
`base + ri` is among the collected matches. -/
lemma runScan_mem (cond : Run → Bool) (p : Paragraph) (pIdx : Nat) :
    ∀ (runs : List Run) (base ri : Nat) (R : Run),
      runs[ri]? = some R → cond R = true →
      (⟨p, pIdx, R, base + ri, R.text⟩ : Found) ∈ runScan cond p pIdx base runs := by
  intro runs
  induction runs with
  | nil =>
    intro base ri R hR _
    simp at hR
  | cons r rest ih =>
    intro base ri R hR hc
    cases ri with
    | zero =>
      simp only [List.getElem?_cons_zero, Option.some.injEq] at hR
      subst hR
      simp [runScan, hc]
    | succ n =>
      simp only [List.getElem?_cons_succ] at hR
      have hmem := ih (base + 1) n R hR hc
      simp only [runScan]
      refine List.mem_append_right _ ?_
      rw [show base + (n + 1) = base + 1 + n by omega]
      exact hmem

/-- The paragraph loop keeps every match produced for paragraph `pi`. -/
lemma findAux_mem (s : PyChars) :
    ∀ (ps : List Paragraph) (base pi : Nat) (P : Paragraph) (x : Found),
      ps[pi]? = some P → x ∈ paraMatches s (base + pi) P → x ∈ findAux s base ps := by
  intro ps
  induction ps with
  | nil =>
    intro base pi P x hP _
    simp at hP
  | cons q rest ih =>
    intro base pi P x hP hx
    cases pi with
    | zero =>
      simp only [List.getElem?_cons_zero, Option.some.injEq] at hP
      subst hP
      simp only [findAux]
      exact List.mem_append_left _ (by simpa using hx)
    | succ n =>
      simp only [List.getElem?_cons_succ] at hP
      simp only [findAux]
      refine List.mem_append_right _ ?_
      exact ih (base + 1) n P x hP
        (by rw [show base + 1 + n = base + (n + 1) by omega]; exact hx)

/-- C9: whitespace-insensitive fallback of the locator: for a phrase
containing a space, whenever the lowercased space-stripped phrase is a
substring of the paragraph space-stripped lowercased text and of the run
space-stripped lowercased text, a match record for that run is among the
returned instances (whether or not the direct substring test succeeded). -/
theorem c9_whitespace_fallback (doc : Doc) (s : PyChars) (pi ri : Nat)
    (P : Paragraph) (R : Run)
    (hP : doc.paragraphs[pi]? = some P) (hR : P.runs[ri]? = some R)
    (hsp : ' ' ∈ s)
    (hpara : containsList (lowerChars (stripSpaces s))
      (stripSpaces (lowerChars P.text)) = true)
    (hrun : containsList (lowerChars (stripSpaces s))
      (lowerChars (stripSpaces R.text)) = true) :
    (⟨P, pi, R, ri, R.text⟩ : Found) ∈ find_text_in_document doc s := by
  have h1 : (⟨P, 0 + pi, R, 0 + ri, R.text⟩ : Found) ∈
      runScan (fun r => containsList (lowerChars (stripSpaces s))
        (lowerChars (stripSpaces r.text))) P (0 + pi) 0 P.runs :=
    runScan_mem _ P (0 + pi) P.runs 0 ri R hR hrun
  have h2 : (⟨P, 0 + pi, R, 0 + ri, R.text⟩ : Found) ∈ paraMatches s (0 + pi) P := by
    simp only [paraMatches]
    refine List.mem_append_right _ ?_
    rw [if_pos hsp, if_pos hpara]
    exact h1
  have h3 := findAux_mem s doc.paragraphs 0 pi P _ hP h2
  unfold find_text_in_document
  simpa using h3

theorem c9_whitespace_fallback_witness :
    (⟨para_alignRight, 0, run_alignRight, 0, run_alignRight.text⟩ : Found) ∈
      find_text_in_document doc_alignRight ("Align Right".toList) :=
  c9_whitespace_fallback doc_alignRight ("Align Right".toList) 0 0 para_alignRight
    run_alignRight rfl rfl (by decide) (by decide) (by decide)

end WordChecker
